import Mathlib

/-!
Verification of the contribution store (`src/storage.rs`).

The store is a facade over a SQLite `contributors` table with columns
`uid, started_at, finished_at, expired_at`.  We embed the table as a list
of rows, the wall clock as an explicit `Nat` argument (the value of
`Utc::now()` at the moment of the call), and each SQL statement as a pure
function on the table returning the new table together with the number of
rows the statement affected.  A database round trip may fail; the outcome
of the round trip is an explicit argument (`Except` for the fetch of
`has_contributed`, an `Option SqlxError` for the three `execute` calls,
where `some e` means the driver returned `Err(e)` and, the statement
having failed, the table is unchanged).
-/

namespace Storage

/-- One row of the `contributors` table.  `started_at` is non-nullable:
the only statement that inserts a row always binds it. -/
structure ContributorRow where
  uid : String
  started_at : Nat
  finished_at : Option Nat
  expired_at : Option Nat
deriving Repr, DecidableEq

abbrev ContributorsTable := List ContributorRow

/-- The error type of the database driver (`sqlx::error::Error`), reduced
to the one capability the code uses: `error.to_string()`. -/
structure SqlxError where
  message : String
deriving Repr, DecidableEq

/-- `enum StorageError { DatabaseError(sqlx::error::Error) }`. -/
inductive StorageError where
  | DatabaseError : SqlxError → StorageError
deriving Repr, DecidableEq

/-- A minimal JSON value, enough for `json!({ "error": message })`. -/
inductive Json where
  | str : String → Json
  | obj : List (String × Json) → Json
deriving Repr

/-- `StatusCode::INTERNAL_SERVER_ERROR`. -/
def internalServerError : Nat := 500

/-- A transport response: a status code and a JSON body. -/
structure Response where
  status : Nat
  body : Json
deriving Repr

/-- `impl IntoResponse for StorageError`: extract the underlying error's
message and answer status 500 with body `json!({ "error": message })`. -/
def StorageError.into_response : StorageError → Response
  | .DatabaseError e => { status := internalServerError,
                          body := Json.obj [("error", Json.str e.message)] }

/-- `SELECT EXISTS(SELECT 1 FROM contributors WHERE uid = ?1)`:
true iff some row of the table has the given uid. -/
def existsQuery (db : ContributorsTable) (uid : String) : Bool :=
  db.any (fun r => r.uid == uid)

/-- `PersistentStorage::has_contributed`: run the EXISTS query over the
fetch outcome; a driver error is wrapped in `StorageError::DatabaseError`
(`.map_err(StorageError::DatabaseError)`). -/
def has_contributed (fetched : Except SqlxError ContributorsTable) (uid : String) :
    Except StorageError Bool :=
  match fetched with
  | .error e => .error (StorageError.DatabaseError e)
  | .ok db => .ok (existsQuery db uid)

/-- `INSERT INTO contributors (uid, started_at) VALUES (?1, ?2)` with
`?2 = Utc::now()`: append one row with both terminal columns NULL;
one row affected. -/
def insertStatement (db : ContributorsTable) (uid : String) (now : Nat) :
    ContributorsTable × Nat :=
  (db ++ [{ uid := uid, started_at := now, finished_at := none, expired_at := none }], 1)

/-- `UPDATE contributors SET finished_at = ?1 WHERE uid = ?2` with
`?1 = Utc::now()`: set `finished_at` on every row whose uid matches;
the affected count is the number of matching rows. -/
def finishStatement (db : ContributorsTable) (now : Nat) (uid : String) :
    ContributorsTable × Nat :=
  (db.map (fun r => if r.uid == uid then { r with finished_at := some now } else r),
   (db.filter (fun r => r.uid == uid)).length)

/-- `UPDATE contributors SET expired_at = ?1 WHERE uid = ?2`, symmetric
to `finishStatement`. -/
def expireStatement (db : ContributorsTable) (now : Nat) (uid : String) :
    ContributorsTable × Nat :=
  (db.map (fun r => if r.uid == uid then { r with expired_at := some now } else r),
   (db.filter (fun r => r.uid == uid)).length)

/-- `PersistentStorage::insert_contributor`: execute the INSERT; the
result is discarded with `.ok()`, so a driver error (`some e`) is
swallowed and, the statement having failed, the table is unchanged.
The Rust function returns `()`: no error channel exists in its type. -/
def insert_contributor (db : ContributorsTable) (uid : String) (now : Nat)
    (outcome : Option SqlxError) : ContributorsTable :=
  match outcome with
  | some _ => db
  | none => (insertStatement db uid now).1

/-- `PersistentStorage::finish_contribution`: execute the UPDATE of
`finished_at`; the result is discarded with `.ok()`. -/
def finish_contribution (db : ContributorsTable) (uid : String) (now : Nat)
    (outcome : Option SqlxError) : ContributorsTable :=
  match outcome with
  | some _ => db
  | none => (finishStatement db now uid).1

/-- `PersistentStorage::expire_contribution`: execute the UPDATE of
`expired_at`; the result is discarded with `.ok()`. -/
def expire_contribution (db : ContributorsTable) (uid : String) (now : Nat)
    (outcome : Option SqlxError) : ContributorsTable :=
  match outcome with
  | some _ => db
  | none => (expireStatement db now uid).1

/-! Traces of store operations, for the invariants that quantify over
every sequence of calls.  Each trace entry carries the operation, the
wall-clock value read at the call, and the outcome of the round trip. -/

/-- One call to a mutation operation of the store. -/
inductive StoreOp where
  | insertOp (uid : String) (outcome : Option SqlxError)
  | finishOp (uid : String) (outcome : Option SqlxError)
  | expireOp (uid : String) (outcome : Option SqlxError)
deriving Repr, DecidableEq

/-- Apply one operation at wall-clock time `t`. -/
def applyOp (db : ContributorsTable) : StoreOp → Nat → ContributorsTable
  | .insertOp uid o, t => insert_contributor db uid t o
  | .finishOp uid o, t => finish_contribution db uid t o
  | .expireOp uid o, t => expire_contribution db uid t o

/-- Run a trace of timestamped operations from left to right. -/
def runTrace (db : ContributorsTable) : List (StoreOp × Nat) → ContributorsTable
  | [] => db
  | (op, t) :: rest => runTrace (applyOp db op t) rest

/-- The wall-clock reads of a trace are non-decreasing and at least `t0`. -/
def timesMono : Nat → List (StoreOp × Nat) → Bool
  | _, [] => true
  | t0, (_, t) :: rest => decide (t0 ≤ t) && timesMono t rest

/-- `started_at ≤ finished_at` and `started_at ≤ expired_at` whenever the
terminal column is set. -/
def rowOk (r : ContributorRow) : Bool :=
  r.finished_at.all (fun f => decide (r.started_at ≤ f)) &&
  r.expired_at.all (fun x => decide (r.started_at ≤ x))

/-- Every timestamp stored in the row is at most `t`. -/
def rowBounded (t : Nat) (r : ContributorRow) : Bool :=
  decide (r.started_at ≤ t) &&
  r.finished_at.all (fun f => decide (f ≤ t)) &&
  r.expired_at.all (fun x => decide (x ≤ t))

/-- Every row of the table is well-ordered and bounded by `t`. -/
def dbOk (t : Nat) (db : ContributorsTable) : Bool :=
  db.all (fun r => rowOk r && rowBounded t r)

/-- Does the operation record a successful insert for this uid? -/
def isSuccessfulInsertFor (uid : String) : StoreOp → Bool
  | .insertOp u none => u == uid
  | _ => false

end Storage

namespace Storage

/-! Helper lemmas shared by several claims. -/

theorem existsQuery_iff (db : ContributorsTable) (uid : String) :
    existsQuery db uid = true ↔ ∃ r ∈ db, r.uid = uid := by
  simp [existsQuery, List.any_eq_true]

theorem existsQuery_finishStatement (db : ContributorsTable) (u uid : String) (now : Nat) :
    existsQuery (finishStatement db now u).1 uid = existsQuery db uid := by
  simp only [finishStatement, existsQuery, List.any_map]
  congr 1
  funext r
  simp only [Function.comp]
  split <;> rfl

theorem existsQuery_expireStatement (db : ContributorsTable) (u uid : String) (now : Nat) :
    existsQuery (expireStatement db now u).1 uid = existsQuery db uid := by
  simp only [expireStatement, existsQuery, List.any_map]
  congr 1
  funext r
  simp only [Function.comp]
  split <;> rfl

theorem existsQuery_applyOp (db : ContributorsTable) (op : StoreOp) (t : Nat)
    (uid : String) :
    existsQuery (applyOp db op t) uid =
      (existsQuery db uid || isSuccessfulInsertFor uid op) := by
  rcases op with ⟨u, o⟩ | ⟨u, o⟩ | ⟨u, o⟩ <;> rcases o with _ | e
  · simp [applyOp, insert_contributor, insertStatement, existsQuery,
      isSuccessfulInsertFor, List.any_append]
  · simp [applyOp, insert_contributor, isSuccessfulInsertFor]
  · simp only [applyOp, finish_contribution, isSuccessfulInsertFor, Bool.or_false]
    exact existsQuery_finishStatement db u uid t
  · simp [applyOp, finish_contribution, isSuccessfulInsertFor]
  · simp only [applyOp, expire_contribution, isSuccessfulInsertFor, Bool.or_false]
    exact existsQuery_expireStatement db u uid t
  · simp [applyOp, expire_contribution, isSuccessfulInsertFor]

theorem existsQuery_runTrace (tr : List (StoreOp × Nat)) (db : ContributorsTable)
    (uid : String) :
    existsQuery (runTrace db tr) uid =
      (existsQuery db uid || tr.any (fun e => isSuccessfulInsertFor uid e.1)) := by
  induction tr generalizing db with
  | nil => simp [runTrace]
  | cons e rest ih =>
      rcases e with ⟨op, t⟩
      simp [runTrace, ih, existsQuery_applyOp, Bool.or_assoc]

theorem rowBounded_mono (t t' : Nat) (hle : t ≤ t') (r : ContributorRow)
    (hr : rowBounded t r = true) : rowBounded t' r = true := by
  rcases r with ⟨u, s, f, x⟩
  rcases f with _ | f <;> rcases x with _ | x <;>
    simp_all [rowBounded, Option.all] <;> omega

theorem dbOk_mono (t t' : Nat) (hle : t ≤ t') (db : ContributorsTable)
    (h : dbOk t db = true) : dbOk t' db = true := by
  simp only [dbOk, List.all_eq_true, Bool.and_eq_true] at h ⊢
  intro r hr
  exact ⟨(h r hr).1, rowBounded_mono t t' hle r (h r hr).2⟩

theorem rowOkBounded_finish (t t0 : Nat) (hle : t0 ≤ t) (u : String) (r : ContributorRow)
    (h : (rowOk r && rowBounded t0 r) = true) :
    (rowOk (if r.uid == u then { r with finished_at := some t } else r) &&
     rowBounded t (if r.uid == u then { r with finished_at := some t } else r)) = true := by
  rcases r with ⟨ru, s, f, x⟩
  by_cases hu : (ru == u) = true <;>
    rcases f with _ | f <;> rcases x with _ | x <;>
    simp_all [rowOk, rowBounded, Option.all] <;> omega

theorem rowOkBounded_expire (t t0 : Nat) (hle : t0 ≤ t) (u : String) (r : ContributorRow)
    (h : (rowOk r && rowBounded t0 r) = true) :
    (rowOk (if r.uid == u then { r with expired_at := some t } else r) &&
     rowBounded t (if r.uid == u then { r with expired_at := some t } else r)) = true := by
  rcases r with ⟨ru, s, f, x⟩
  by_cases hu : (ru == u) = true <;>
    rcases f with _ | f <;> rcases x with _ | x <;>
    simp_all [rowOk, rowBounded, Option.all] <;> omega

theorem dbOk_applyOp (db : ContributorsTable) (op : StoreOp) (t t0 : Nat)
    (hle : t0 ≤ t) (h : dbOk t0 db = true) : dbOk t (applyOp db op t) = true := by
  have hmono := dbOk_mono t0 t hle db h
  rcases op with ⟨u, o⟩ | ⟨u, o⟩ | ⟨u, o⟩ <;> rcases o with _ | e
  · simp only [dbOk, List.all_eq_true] at hmono ⊢
    simp only [applyOp, insert_contributor, insertStatement]
    intro r hr
    rcases List.mem_append.mp hr with hr' | hr'
    · exact hmono r hr'
    · simp only [List.mem_singleton] at hr'
      subst hr'
      simp [rowOk, rowBounded, Option.all]
  · exact hmono
  · simp only [applyOp, finish_contribution, finishStatement, dbOk, List.all_map]
    simp only [dbOk, List.all_eq_true] at h ⊢
    intro r hr
    exact rowOkBounded_finish t t0 hle u r (h r hr)
  · exact hmono
  · simp only [applyOp, expire_contribution, expireStatement, dbOk, List.all_map]
    simp only [dbOk, List.all_eq_true] at h ⊢
    intro r hr
    exact rowOkBounded_expire t t0 hle u r (h r hr)
  · exact hmono

theorem length_applyOp (db : ContributorsTable) (op : StoreOp) (t : Nat) :
    db.length ≤ (applyOp db op t).length := by
  rcases op with ⟨u, o⟩ | ⟨u, o⟩ | ⟨u, o⟩ <;> rcases o with _ | e <;>
    simp [applyOp, insert_contributor, finish_contribution, expire_contribution,
      insertStatement, finishStatement, expireStatement]

theorem length_runTrace (tr : List (StoreOp × Nat)) (db : ContributorsTable) :
    db.length ≤ (runTrace db tr).length := by
  induction tr generalizing db with
  | nil => exact Nat.le_refl _
  | cons e rest ih =>
      exact Nat.le_trans (length_applyOp db e.1 e.2) (ih (applyOp db e.1 e.2))

theorem dbOk_runTrace (tr : List (StoreOp × Nat)) (db : ContributorsTable) (t0 : Nat)
    (h : dbOk t0 db = true) (hm : timesMono t0 tr = true) :
    ∃ t1, dbOk t1 (runTrace db tr) = true := by
  induction tr generalizing db t0 with
  | nil => exact ⟨t0, h⟩
  | cons e rest ih =>
      rcases e with ⟨op, t⟩
      simp only [timesMono, Bool.and_eq_true, decide_eq_true_eq] at hm
      exact ih (applyOp db op t) t (dbOk_applyOp db op t t0 hm.1 h) hm.2

theorem allRowOk_of_dbOk (t : Nat) (db : ContributorsTable)
    (h : dbOk t db = true) : db.all rowOk = true := by
  simp only [dbOk, List.all_eq_true, Bool.and_eq_true] at h ⊢
  intro r hr
  exact (h r hr).1

/-! The claim theorems. -/

/-- Claim C1: on a successful fetch, `has_contributed` answers `Ok true`
iff at least one row with the uid exists, whatever its terminal columns
hold; starting from the empty table, a uid for which no successful insert
appears in the trace answers false, and a uid successfully inserted
somewhere in the trace answers true from any starting table. -/
theorem C1_has_contributed_exists (db : ContributorsTable) (uid : String) :
    (has_contributed (.ok db) uid = .ok true ↔ ∃ r ∈ db, r.uid = uid) ∧
    (∀ tr : List (StoreOp × Nat),
      tr.any (fun e => isSuccessfulInsertFor uid e.1) = false →
      has_contributed (.ok (runTrace [] tr)) uid = .ok false) ∧
    (∀ (db0 : ContributorsTable) (tr : List (StoreOp × Nat)),
      tr.any (fun e => isSuccessfulInsertFor uid e.1) = true →
      has_contributed (.ok (runTrace db0 tr)) uid = .ok true) := by
  refine ⟨?_, ?_, ?_⟩
  · rw [show has_contributed (.ok db) uid = .ok (existsQuery db uid) from rfl]
    rw [← existsQuery_iff db uid]
    exact ⟨fun h => by injection h, fun h => by rw [h]⟩
  · intro tr h
    rw [show ∀ d, has_contributed (.ok d) uid = .ok (existsQuery d uid) from fun d => rfl]
    rw [existsQuery_runTrace tr [] uid, h]
    rfl
  · intro db0 tr h
    rw [show ∀ d, has_contributed (.ok d) uid = .ok (existsQuery d uid) from fun d => rfl]
    rw [existsQuery_runTrace tr db0 uid, h, Bool.or_true]

theorem C1_witness :
    (has_contributed (.ok [⟨"alice", 0, some 1, some 2⟩]) "alice" = .ok true) ∧
    has_contributed (.ok (runTrace [] [(StoreOp.finishOp "alice" none, 0)])) "alice" =
      .ok false ∧
    has_contributed (.ok (runTrace [] [(StoreOp.insertOp "alice" none, 1)])) "alice" =
      .ok true := by
  refine ⟨?_, ?_, ?_⟩
  · exact (C1_has_contributed_exists [⟨"alice", 0, some 1, some 2⟩] "alice").1.mpr
      ⟨_, List.mem_singleton.mpr rfl, rfl⟩
  · exact (C1_has_contributed_exists [] "alice").2.1 _ (by decide)
  · exact (C1_has_contributed_exists [] "alice").2.2 [] _ (by decide)

/-- Claim C2: `has_contributed` succeeds exactly when the fetch succeeds
(the two equations cover both constructors of the fetch outcome), the
driver error is wrapped in `DatabaseError`, and converting that error to a
transport response gives status 500 — the fixed internal-server-error
classification — with body `obj [("error", message)]`. -/
theorem C2_has_contributed_error_contract (db : ContributorsTable) (e : SqlxError)
    (uid : String) :
    has_contributed (.ok db) uid = .ok (existsQuery db uid) ∧
    has_contributed (.error e) uid = .error (StorageError.DatabaseError e) ∧
    (StorageError.DatabaseError e).into_response =
      { status := internalServerError,
        body := Json.obj [("error", Json.str e.message)] } ∧
    internalServerError = 500 :=
  ⟨rfl, rfl, rfl, rfl⟩

/-- Claim C3: the three mutation operations have no error channel in their
type (mirroring the Rust `()` return) and on a driver error `e` the error
is dropped by `.ok()` and the table is left exactly as it was. -/
theorem C3_mutations_swallow_errors (db : ContributorsTable) (uid : String)
    (now : Nat) (e : SqlxError) :
    insert_contributor db uid now (some e) = db ∧
    finish_contribution db uid now (some e) = db ∧
    expire_contribution db uid now (some e) = db :=
  ⟨rfl, rfl, rfl⟩

/-- Claim C4: a successful insert appends exactly one row — the table grows
by one, the existing rows are untouched (they are the prefix of the result),
and the one new row carries the given uid, `started_at` equal to the
wall-clock read of the call, and NULL in both terminal columns. -/
theorem C4_insert_success (db : ContributorsTable) (uid : String) (now : Nat) :
    (insert_contributor db uid now none).length = db.length + 1 ∧
    (insert_contributor db uid now none).take db.length = db ∧
    (insert_contributor db uid now none).drop db.length =
      [{ uid := uid, started_at := now, finished_at := none, expired_at := none }] := by
  refine ⟨?_, ?_, ?_⟩
  · simp [insert_contributor, insertStatement]
  · exact List.take_left ..
  · exact List.drop_left ..

/-- Claim C5: when the table has exactly one row for the uid and that
row's two terminal columns are NULL, a successful finish sets that row's
`finished_at` to the call's time and leaves `expired_at` NULL, a successful
expire does the symmetric thing, and in both results the row keeps its uid
and `started_at` while every row at a position holding a different uid is
byte-for-byte unchanged; both results have the same length as the input. -/
theorem C5_terminal_update_frame (db : ContributorsTable) (uid : String) (now : Nat)
    (hone : (db.filter (fun r => r.uid == uid)).length = 1)
    (hnull : ∀ r ∈ db, r.uid = uid → r.finished_at = none ∧ r.expired_at = none) :
    (finish_contribution db uid now none).length = db.length ∧
    (expire_contribution db uid now none).length = db.length ∧
    ∀ (i : Nat) (r : ContributorRow), db[i]? = some r →
      (r.uid ≠ uid →
        (finish_contribution db uid now none)[i]? = some r ∧
        (expire_contribution db uid now none)[i]? = some r) ∧
      (r.uid = uid →
        (finish_contribution db uid now none)[i]? =
          some ⟨r.uid, r.started_at, some now, none⟩ ∧
        (expire_contribution db uid now none)[i]? =
          some ⟨r.uid, r.started_at, none, some now⟩) := by
  refine ⟨by simp [finish_contribution, finishStatement],
          by simp [expire_contribution, expireStatement], ?_⟩
  intro i r hi
  have hmemF : (finish_contribution db uid now none)[i]? =
      some (if r.uid == uid then { r with finished_at := some now } else r) := by
    simp [finish_contribution, finishStatement, List.getElem?_map, hi]
  have hmemE : (expire_contribution db uid now none)[i]? =
      some (if r.uid == uid then { r with expired_at := some now } else r) := by
    simp [expire_contribution, expireStatement, List.getElem?_map, hi]
  constructor
  · intro hne
    have hb : (r.uid == uid) = false := beq_eq_false_iff_ne.mpr hne
    rw [hmemF, hmemE, hb]
    exact ⟨by simp, by simp⟩
  · intro heq
    have hb : (r.uid == uid) = true := beq_iff_eq.mpr heq
    obtain ⟨hf, hx⟩ := hnull r (List.getElem?_mem hi) heq
    rw [hmemF, hmemE, hb]
    rcases r with ⟨ru, s, f, x⟩
    simp only at hf hx
    subst hf hx
    exact ⟨by simp, by simp⟩

/-- A concrete two-row table for exercising the frame theorem. -/
def twoRowTable : ContributorsTable :=
  [⟨"alice", 3, none, none⟩, ⟨"bob", 4, none, none⟩]

theorem C5_witness :
    (finish_contribution twoRowTable "alice" 7 none)[0]? =
      some ⟨"alice", 3, some 7, none⟩ ∧
    (expire_contribution twoRowTable "alice" 7 none)[1]? =
      some ⟨"bob", 4, none, none⟩ := by
  have h := C5_terminal_update_frame twoRowTable "alice" 7 (by decide) (by decide)
  exact ⟨((h.2.2 0 ⟨"alice", 3, none, none⟩ rfl).2 rfl).1,
         ((h.2.2 1 ⟨"bob", 4, none, none⟩ rfl).1 (by decide)).2⟩

/-- Claim C6: when no row carries the uid, finish and expire leave the
table exactly as it was, insert nothing, and the UPDATE reports zero rows
affected; no error channel exists in their type. -/
theorem C6_update_without_match (db : ContributorsTable) (uid : String) (now : Nat)
    (h : ∀ r ∈ db, r.uid ≠ uid) :
    finish_contribution db uid now none = db ∧
    expire_contribution db uid now none = db ∧
    (finishStatement db now uid).2 = 0 ∧
    (expireStatement db now uid).2 = 0 := by
  have hb : ∀ r ∈ db, (r.uid == uid) = false :=
    fun r hr => beq_eq_false_iff_ne.mpr (h r hr)
  have hfil : db.filter (fun r => r.uid == uid) = [] :=
    List.filter_eq_nil_iff.mpr (fun r hr => by simp [hb r hr])
  refine ⟨?_, ?_, ?_, ?_⟩
  · show (db.map fun r => if r.uid == uid then { r with finished_at := some now } else r) = db
    conv_rhs => rw [show db = db.map id from (List.map_id db).symm]
    exact List.map_congr_left (fun r hr => by simp [hb r hr])
  · show (db.map fun r => if r.uid == uid then { r with expired_at := some now } else r) = db
    conv_rhs => rw [show db = db.map id from (List.map_id db).symm]
    exact List.map_congr_left (fun r hr => by simp [hb r hr])
  · simp [finishStatement, hfil]
  · simp [expireStatement, hfil]

theorem C6_witness :
    finish_contribution [(⟨"bob", 1, none, none⟩ : ContributorRow)] "alice" 5 none =
      [⟨"bob", 1, none, none⟩] ∧
    (expireStatement [(⟨"bob", 1, none, none⟩ : ContributorRow)] 5 "alice").2 = 0 := by
  have h := C6_update_without_match [⟨"bob", 1, none, none⟩] "alice" 5 (by decide)
  exact ⟨h.1, h.2.2.2⟩

/-- Claim C7: from the empty table, inserting "alice" makes the existence
query answer true; expiring then shows `expired_at` set with `finished_at`
NULL; finishing afterwards leaves both terminal columns set — the store
enforces no exclusivity between the two terminal outcomes. -/
theorem C7_alice_scenario :
    existsQuery (insert_contributor [] "alice" 1 none) "alice" = true ∧
    expire_contribution (insert_contributor [] "alice" 1 none) "alice" 2 none =
      [⟨"alice", 1, none, some 2⟩] ∧
    finish_contribution
      (expire_contribution (insert_contributor [] "alice" 1 none) "alice" 2 none)
      "alice" 3 none =
      [⟨"alice", 1, some 3, some 2⟩] := by
  decide

/-- A table holding two rows for uid "a": the duplicate state the spec
itself says repeated insertion can create. -/
def dupTable : ContributorsTable :=
  [⟨"a", 0, none, none⟩, ⟨"a", 1, none, none⟩]

/-- Claim C8 counterexample: on a table with two rows for uid "a" the
finish UPDATE affects two rows — not zero or one — and both rows'
`finished_at` columns actually change. -/
theorem C8_counterexample :
    (finishStatement dupTable 5 "a").2 = 2 ∧
    ¬ (finishStatement dupTable 5 "a").2 ≤ 1 ∧
    (finishStatement dupTable 5 "a").1 =
      [⟨"a", 0, some 5, none⟩, ⟨"a", 1, some 5, none⟩] := by
  decide

/-- Claim C8 amended: each terminal UPDATE affects exactly as many rows as
carry the uid — zero or one whenever the table holds at most one row for
that uid, but all duplicates at once when it holds more. -/
theorem C8_amended_rows_affected (db : ContributorsTable) (uid : String) (now : Nat) :
    (finishStatement db now uid).2 = (db.filter (fun r => r.uid == uid)).length ∧
    (expireStatement db now uid).2 = (db.filter (fun r => r.uid == uid)).length ∧
    ((db.filter (fun r => r.uid == uid)).length ≤ 1 →
      (finishStatement db now uid).2 ≤ 1 ∧ (expireStatement db now uid).2 ≤ 1) :=
  ⟨rfl, rfl, fun h => ⟨h, h⟩⟩

theorem C8_witness :
    (finishStatement [(⟨"a", 0, none, none⟩ : ContributorRow)] 5 "a").2 ≤ 1 ∧
    (expireStatement [(⟨"a", 0, none, none⟩ : ContributorRow)] 5 "a").2 ≤ 1 :=
  (C8_amended_rows_affected [⟨"a", 0, none, none⟩] "a" 5).2.2 (by decide)

/-- Claim C9: over every trace of store operations whose wall-clock reads
are non-decreasing, starting from a table whose rows satisfy the ordering
invariant with all timestamps bounded by the start time, every row of the
final table has `started_at ≤ finished_at` and `started_at ≤ expired_at`
whenever those are set, and no operation deletes a row — the table never
shrinks.  `started_at` is non-nullable in the row type itself. -/
theorem C9_trace_invariant (tr : List (StoreOp × Nat)) (db : ContributorsTable)
    (t0 : Nat) (h : dbOk t0 db = true) (hm : timesMono t0 tr = true) :
    (runTrace db tr).all rowOk = true ∧ db.length ≤ (runTrace db tr).length := by
  obtain ⟨t1, h1⟩ := dbOk_runTrace tr db t0 h hm
  exact ⟨allRowOk_of_dbOk t1 _ h1, length_runTrace tr db⟩

theorem C9_witness :
    (runTrace [] [(StoreOp.insertOp "a" none, 1), (StoreOp.finishOp "a" none, 2),
      (StoreOp.expireOp "a" none, 3)]).all rowOk = true ∧
    ([] : ContributorsTable).length ≤
      (runTrace [] [(StoreOp.insertOp "a" none, 1), (StoreOp.finishOp "a" none, 2),
        (StoreOp.expireOp "a" none, 3)]).length :=
  C9_trace_invariant
    [(StoreOp.insertOp "a" none, 1), (StoreOp.finishOp "a" none, 2),
      (StoreOp.expireOp "a" none, 3)] [] 0 (by decide) (by decide)

/-- Claim C10: the terminal UPDATEs carry no guard on the column being
NULL: if the row at position `i` carries the uid and already has
`finished_at` (resp. `expired_at`) set, a later successful finish (resp.
expire) overwrites it with the new call's wall-clock read — last-write-wins
rather than idempotent. -/
theorem C10_unguarded_overwrite (db : ContributorsTable) (uid : String) (now : Nat)
    (i : Nat) (r : ContributorRow) (t0 : Nat)
    (hi : db[i]? = some r) (huid : r.uid = uid) :
    (r.finished_at = some t0 →
      (finish_contribution db uid now none)[i]? =
        some { r with finished_at := some now }) ∧
    (r.expired_at = some t0 →
      (expire_contribution db uid now none)[i]? =
        some { r with expired_at := some now }) := by
  have hb : (r.uid == uid) = true := beq_iff_eq.mpr huid
  constructor
  · intro _
    simp only [finish_contribution, finishStatement, List.getElem?_map, hi, Option.map_some]
    simp only [Option.map]
    rw [if_pos hb]
  · intro _
    simp only [expire_contribution, expireStatement, List.getElem?_map, hi, Option.map_some]
    simp only [Option.map]
    rw [if_pos hb]

theorem C10_witness :
    (finish_contribution [(⟨"a", 0, some 1, none⟩ : ContributorRow)] "a" 9 none)[0]? =
      some ⟨"a", 0, some 9, none⟩ ∧
    (expire_contribution [(⟨"a", 0, none, some 1⟩ : ContributorRow)] "a" 9 none)[0]? =
      some ⟨"a", 0, none, some 9⟩ :=
  ⟨(C10_unguarded_overwrite [⟨"a", 0, some 1, none⟩] "a" 9 0 ⟨"a", 0, some 1, none⟩ 1
      rfl rfl).1 rfl,
   (C10_unguarded_overwrite [⟨"a", 0, none, some 1⟩] "a" 9 0 ⟨"a", 0, none, some 1⟩ 1
      rfl rfl).2 rfl⟩

end Storage
